import Mathlib

/-!
Shallow embedding of the helius-go client library (package `helius`).

Conventions of the embedding:
* Go `int` / `int64` become `Int` (no claim here concerns overflow behaviour);
  HTTP status codes are `Int` as in Go.
* Go `string` becomes `String`; Go byte slices holding response bodies are
  modelled as `String` (the code only ever converts them with `string(...)`
  or hands them to a JSON decoder).
* The injected `*http.Client` is modelled as a `Transport` oracle argument:
  a pure function from (method, url, optional body) to either a
  transport-level failure message or an `HTTPResponse`.  The no-op logger
  has no observable effect and is omitted from the `Client` record.
* `encoding/json` decoding of a response body into a typed value is modelled
  as a `decode : String → Option α` oracle argument; encoding of the small
  request maps the code builds is modelled by concrete encoder functions
  (for these map shapes `json.Marshal` cannot fail).
* The unbounded `for` loop of `GetAllTokenHolders` is modelled with explicit
  fuel; `none` means the fuel was exhausted before the loop terminated.
-/

deriving instance DecidableEq for Except

namespace Helius

/-- Structure `APIError` from errors.go: `{StatusCode int; Message string; Path string}`. -/
structure APIError where
  StatusCode : Int
  Message : String
  Path : String
deriving DecidableEq, Repr

/-- Go: `func (e *APIError) IsNotFound() bool { return e.StatusCode == http.StatusNotFound }` (404). -/
def APIError.IsNotFound (e : APIError) : Bool :=
  e.StatusCode == 404

/-- Go: `func (e *APIError) IsRateLimited() bool { return e.StatusCode == http.StatusTooManyRequests }` (429). -/
def APIError.IsRateLimited (e : APIError) : Bool :=
  e.StatusCode == 429

/-- Go: `func (e *APIError) IsServerError() bool { return e.StatusCode >= 500 && e.StatusCode < 600 }`. -/
def APIError.IsServerError (e : APIError) : Bool :=
  decide (500 ≤ e.StatusCode) && decide (e.StatusCode < 600)

/-- Go: `func (e *APIError) IsClientError() bool { return e.StatusCode >= 400 && e.StatusCode < 500 }`. -/
def APIError.IsClientError (e : APIError) : Bool :=
  decide (400 ≤ e.StatusCode) && decide (e.StatusCode < 500)

/-- Go: `func (e *APIError) IsUnauthorized() bool { return e.StatusCode == http.StatusUnauthorized }` (401). -/
def APIError.IsUnauthorized (e : APIError) : Bool :=
  e.StatusCode == 401

/-- Go: `func (e *APIError) IsForbidden() bool { return e.StatusCode == http.StatusForbidden }` (403). -/
def APIError.IsForbidden (e : APIError) : Bool :=
  e.StatusCode == 403

/-- The errors an operation can surface: a structured `APIError`, a
transport-level failure (`fmt.Errorf("do request: %w", err)` and friends),
or a JSON-decode failure (`fmt.Errorf("decode response: %w", err)`). -/
inductive ClientError where
  | api (e : APIError)
  | network (msg : String)
  | decodeFailure (body : String)
deriving DecidableEq, Repr

/-- The retry decision of the `CheckRetry` closure installed by `NewClient`
(client.go).  In Go it is
```
if ctx.Err() != nil { return false, ctx.Err() }
if err != nil { return true, err }
if resp.StatusCode == http.StatusTooManyRequests { return true, nil }
if resp.StatusCode >= 500 { return true, nil }
return false, nil
```
`ctxDone` models `ctx.Err() != nil`, `transportErr` models `err != nil`,
`status` models `resp.StatusCode` (only consulted when there is a response). -/
def checkRetry (ctxDone : Bool) (transportErr : Bool) (status : Int) : Bool :=
  if ctxDone then false
  else if transportErr then true
  else if status == 429 then true
  else if 500 ≤ status then true
  else false

/-- The value of a completed HTTP exchange as `doRequest` observes it:
`resp.StatusCode` and the fully read body `respBody`. -/
structure HTTPResponse where
  status : Int
  body : String
deriving DecidableEq, Repr

/-- The injected HTTP mechanism (`c.httpClient.Do` plus `io.ReadAll`),
as a pure oracle: method, url, optional request body ↦ failure or response. -/
def Transport : Type :=
  String → String → Option String → Except String HTTPResponse

/-- Structure `Client` from client.go, keeping the data fields
(`apiKey`, `apiURL`, `rpcURL`); the `httpClient` is passed to each
operation as a `Transport` oracle and the logger is a no-op. -/
structure Client where
  apiKey : String
  apiURL : String
  rpcURL : String
deriving DecidableEq, Repr

/-- Method `RPCURL`: `fmt.Sprintf("%s/?api-key=%s", c.rpcURL, c.apiKey)`. -/
def Client.RPCURL (c : Client) : String :=
  c.rpcURL ++ "/?api-key=" ++ c.apiKey

/-- The URL `doRequest` builds:
`fmt.Sprintf("%s%s?api-key=%s", c.apiURL, path, c.apiKey)`. -/
def requestURL (c : Client) (path : String) : String :=
  c.apiURL ++ path ++ "?api-key=" ++ c.apiKey

/-- The tail of `doRequest` after the HTTP exchange: transport failures are
wrapped, a status ≥ 400 becomes `&APIError{StatusCode, Message: string(respBody), Path}`,
everything else passes the body through. -/
def handleResponse (path : String) : Except String HTTPResponse → Except ClientError String
  | .error msg => .error (.network msg)
  | .ok resp =>
    if 400 ≤ resp.status then
      .error (.api { StatusCode := resp.status, Message := resp.body, Path := path })
    else
      .ok resp.body

/-- Function `doRequest` from client.go: build the authenticated URL, perform the
exchange through the transport, then classify the outcome. -/
def doRequest (c : Client) (method path : String) (body : Option String)
    (transport : Transport) : Except ClientError String :=
  handleResponse path (transport method (requestURL c path) body)

/-- Function `doPost` from client.go: marshal the body and POST it through
`doRequest`.  The caller supplies the already-encoded JSON body (for the
map shapes the operations build, `json.Marshal` cannot fail). -/
def doPost (c : Client) (path : String) (jsonBody : String)
    (transport : Transport) : Except ClientError String :=
  doRequest c "POST" path (some jsonBody) transport

/-- Structure `TokenHolder` from token_holders.go. -/
structure TokenHolder where
  Owner : String
  TokenAccount : String
  Balance : Int
  Decimals : Int
deriving DecidableEq, Repr

/-- Structure `TokenHoldersPage` from token_holders.go. -/
structure TokenHoldersPage where
  Total : Int
  Limit : Int
  Cursor : String
  TokenHolders : List TokenHolder
deriving DecidableEq, Repr

/-- Structure `GetTokenHoldersOptions` from token_holders.go. -/
structure GetTokenHoldersOptions where
  Cursor : String
  Limit : Int
deriving DecidableEq, Repr

/-- The request body `GetTokenHolders` marshals: the map
`{"mint": mint}` plus `"cursor"` when `opts.Cursor != ""` and `"limit"`
when `opts.Limit > 0` (Go marshals map keys alphabetically:
cursor, limit, mint). -/
def encodeTokenHoldersBody (mint : String) (opts : Option GetTokenHoldersOptions) : String :=
  let cursorPart :=
    match opts with
    | some o => if o.Cursor = "" then "" else "\"cursor\":\"" ++ o.Cursor ++ "\","
    | none => ""
  let limitPart :=
    match opts with
    | some o => if 0 < o.Limit then "\"limit\":" ++ toString o.Limit ++ "," else ""
    | none => ""
  "\x7b" ++ cursorPart ++ limitPart ++ "\"mint\":\"" ++ mint ++ "\"\x7d"

/-- Function `GetTokenHolders` from token_holders.go: guard against an empty mint
(client-side `APIError{400, "mint address is required", "/token-holders"}`),
otherwise POST the encoded body to `/token-holders` and decode the page. -/
def GetTokenHolders (c : Client) (mint : String) (opts : Option GetTokenHoldersOptions)
    (transport : Transport) (decode : String → Option TokenHoldersPage) :
    Except ClientError TokenHoldersPage :=
  if mint = "" then
    .error (.api { StatusCode := 400, Message := "mint address is required",
                   Path := "/token-holders" })
  else
    match doRequest c "POST" "/token-holders"
        (some (encodeTokenHoldersBody mint opts)) transport with
    | .error e => .error e
    | .ok body =>
      match decode body with
      | none => .error (.decodeFailure body)
      | some page => .ok page

/-- The `for` loop of `GetAllTokenHolders`, over an abstract single-page
fetch (cursor ↦ page or error), with explicit fuel.  Mirrors
token_holders.go lines 115–133: fetch with the current cursor, abort on
error, append the page's holders, stop when the returned cursor is empty
or the page is empty, otherwise continue with the returned cursor. -/
def getAllTokenHoldersLoop (fetch : String → Except ClientError TokenHoldersPage) :
    String → List TokenHolder → Nat → Option (Except ClientError (List TokenHolder))
  | _, _, 0 => none
  | cursor, acc, fuel + 1 =>
    match fetch cursor with
    | .error e => some (.error e)
    | .ok page =>
      let acc2 := acc ++ page.TokenHolders
      if page.Cursor = "" ∨ page.TokenHolders = [] then some (.ok acc2)
      else getAllTokenHoldersLoop fetch page.Cursor acc2 fuel

/-- The single-page fetch `GetAllTokenHolders` performs each iteration:
`c.GetTokenHolders(ctx, mint, &GetTokenHoldersOptions{Cursor: cursor, Limit: 10000})`. -/
def tokenHoldersFetch (c : Client) (mint : String) (transport : Transport)
    (decode : String → Option TokenHoldersPage) (cursor : String) :
    Except ClientError TokenHoldersPage :=
  GetTokenHolders c mint (some { Cursor := cursor, Limit := 10000 }) transport decode

/-- Function `GetAllTokenHolders` from token_holders.go: run the pagination loop
starting from the empty cursor and an empty accumulator. -/
def GetAllTokenHolders (c : Client) (mint : String) (transport : Transport)
    (decode : String → Option TokenHoldersPage) (fuel : Nat) :
    Option (Except ClientError (List TokenHolder)) :=
  getAllTokenHoldersLoop (tokenHoldersFetch c mint transport decode) "" [] fuel

/-- Structure `Asset` from das.go, keeping its scalar fields.  The nested optional
metadata sub-records (`Content`, `Authorities`, `Compression`, `Grouping`,
`Royalty`, `Ownership`, `Supply`, `TokenInfo`) are pure data carriers that
no claim inspects — assets enter the model only through the JSON-decode
oracle — and are not modelled field-by-field. -/
structure Asset where
  ID : String
  Interface : String
  Mutable : Bool
  Burnt : Bool
deriving DecidableEq, Repr

/-- The request body `GetAsset` marshals: the map `{"id": id}`. -/
def encodeGetAssetBody (id : String) : String :=
  "\x7b\"id\":\"" ++ id ++ "\"\x7d"

/-- Function `GetAsset` from das.go: guard against an empty id (client-side
`APIError{400, "asset ID is required", "/assets"}`), otherwise POST
`{"id": id}` to `/assets` and decode the asset. -/
def GetAsset (c : Client) (id : String) (transport : Transport)
    (decode : String → Option Asset) : Except ClientError Asset :=
  if id = "" then
    .error (.api { StatusCode := 400, Message := "asset ID is required",
                   Path := "/assets" })
  else
    match doPost c "/assets" (encodeGetAssetBody id) transport with
    | .error e => .error e
    | .ok body =>
      match decode body with
      | none => .error (.decodeFailure body)
      | some a => .ok a

/-- The request body `GetAssetBatch` marshals: the map `{"ids": ids}`. -/
def encodeGetAssetBatchBody (ids : List String) : String :=
  "\x7b\"ids\":[" ++ String.intercalate "," (ids.map (fun i => "\"" ++ i ++ "\"")) ++ "]\x7d"

/-- Function `GetAssetBatch` from das.go: `if len(ids) == 0 { return []Asset{}, nil }`,
otherwise POST `{"ids": ids}` to `/assets/batch` and decode the slice. -/
def GetAssetBatch (c : Client) (ids : List String) (transport : Transport)
    (decode : String → Option (List Asset)) : Except ClientError (List Asset) :=
  if ids = [] then
    .ok []
  else
    match doPost c "/assets/batch" (encodeGetAssetBatchBody ids) transport with
    | .error e => .error e
    | .ok body =>
      match decode body with
      | none => .error (.decodeFailure body)
      | some assets => .ok assets

/-- Structure `TopHolderStats` from token_holders.go.  `TopHoldersPercent` is a Go
`float64`; it is modelled as `Rat` and no claim depends on it. -/
structure TopHolderStats where
  TotalHolders : Int := 0
  TopHolders : List TokenHolder := []
  TopHoldersBalance : Int := 0
  TopHoldersPercent : Rat := 0
  TotalSupply : Int := 0
deriving DecidableEq, Repr

/-- Two's-complement reduction of an integer into the `int64` range
`[-2^63, 2^63)`: the value a Go `int64` holds after an arithmetic result.
The numerals are `2^63` and `2^64`. -/
def wrap64 (x : Int) : Int :=
  (x + 9223372036854775808) % 18446744073709551616 - 9223372036854775808

/-- Go `int64` addition: `+` on `int64` wraps around on overflow. -/
def int64Add (a b : Int) : Int :=
  wrap64 (a + b)

/-- Function `CalculateTopHolderStats` from token_holders.go.  An empty input
returns the zero stats before anything else happens.  `totalSupply` and
`topBalance` are Go `int64` accumulators (`totalSupply += h.Balance`), so
each addition wraps (`int64Add`).  `topCount` is `topN` clamped from above
by `len(holders)`; the Go `make([]TokenHolder, topCount)` panics when
`topCount` is negative, which the model renders as `none`. -/
def CalculateTopHolderStats (holders : List TokenHolder) (topN : Int) :
    Option TopHolderStats :=
  if holders = [] then some {}
  else
    let totalSupply : Int := holders.foldl (fun acc h => int64Add acc h.Balance) 0
    let topCount : Int := if topN > (holders.length : Int) then holders.length else topN
    if topCount < 0 then none
    else
      let topHolders := holders.take topCount.toNat
      let topBalance : Int := topHolders.foldl (fun acc h => int64Add acc h.Balance) 0
      let topPercent : Rat :=
        if 0 < totalSupply then (topBalance : Rat) / (totalSupply : Rat) * 100 else 0
      some { TotalHolders := holders.length
             TopHolders := topHolders
             TopHoldersBalance := topBalance
             TopHoldersPercent := topPercent
             TotalSupply := totalSupply }

/-- A complete run of the pagination loop over `fetch`, starting at cursor
`start`: every page is returned by `fetch` at the cursor chained from its
predecessor, every page before the last has a non-empty cursor and a
non-empty holder list (so the loop continues), and the last page has an
empty cursor or an empty holder list (so the loop stops there). -/
def pageChain (fetch : String → Except ClientError TokenHoldersPage) :
    String → List TokenHoldersPage → Prop
  | _, [] => False
  | start, page :: rest =>
    fetch start = .ok page ∧
    match rest with
    | [] => page.Cursor = "" ∨ page.TokenHolders = []
    | _ :: _ => page.Cursor ≠ "" ∧ page.TokenHolders ≠ [] ∧ pageChain fetch page.Cursor rest

/-- A successful partial run of the pagination loop: following `fetch` from
cursor `start` through the pages of `ps` (each continuing the loop) leaves
the loop about to fetch cursor `final`. -/
def pageChainUpTo (fetch : String → Except ClientError TokenHoldersPage) :
    String → List TokenHoldersPage → String → Prop
  | start, [], final => final = start
  | start, page :: rest, final =>
    fetch start = .ok page ∧ page.Cursor ≠ "" ∧ page.TokenHolders ≠ [] ∧
    pageChainUpTo fetch page.Cursor rest final

theorem getAllTokenHoldersLoop_eq_join
    (fetch : String → Except ClientError TokenHoldersPage) :
    ∀ (ps : List TokenHoldersPage) (cursor : String) (acc : List TokenHolder) (fuel : Nat),
      pageChain fetch cursor ps → ps.length ≤ fuel →
      getAllTokenHoldersLoop fetch cursor acc fuel =
        some (.ok (acc ++ (ps.map TokenHoldersPage.TokenHolders).flatten)) := by
  intro ps
  induction ps with
  | nil =>
    intro cursor acc fuel hchain _
    simp [pageChain] at hchain
  | cons page rest ih =>
    intro cursor acc fuel hchain hfuel
    cases fuel with
    | zero => simp at hfuel
    | succ n =>
      cases rest with
      | nil =>
        obtain ⟨hf, hstop⟩ := hchain
        have hstop2 : page.Cursor = "" ∨ page.TokenHolders = [] := hstop
        simp only [getAllTokenHoldersLoop, hf]
        rw [if_pos hstop2]
        simp
      | cons q rs =>
        obtain ⟨hf, hcur, hnonempty, hrec⟩ := hchain
        have hcond : ¬ (page.Cursor = "" ∨ page.TokenHolders = []) := by
          intro h; rcases h with h | h
          · exact hcur h
          · exact hnonempty h
        have hstep := ih page.Cursor (acc ++ page.TokenHolders) n hrec
          (by simpa using Nat.le_of_succ_le_succ hfuel)
        simp only [getAllTokenHoldersLoop, hf, if_neg hcond]
        rw [hstep]
        simp [List.append_assoc]

theorem getAllTokenHoldersLoop_error
    (fetch : String → Except ClientError TokenHoldersPage) :
    ∀ (ps : List TokenHoldersPage) (cursor final : String) (acc : List TokenHolder)
      (fuel : Nat) (e : ClientError),
      pageChainUpTo fetch cursor ps final → fetch final = .error e →
      ps.length < fuel →
      getAllTokenHoldersLoop fetch cursor acc fuel = some (.error e) := by
  intro ps
  induction ps with
  | nil =>
    intro cursor final acc fuel e hchain herr hfuel
    cases fuel with
    | zero => simp at hfuel
    | succ n =>
      have : final = cursor := hchain
      subst this
      simp [getAllTokenHoldersLoop, herr]
  | cons page rest ih =>
    intro cursor final acc fuel e hchain herr hfuel
    cases fuel with
    | zero => simp at hfuel
    | succ n =>
      obtain ⟨hf, hcur, hnonempty, hrec⟩ := hchain
      have hcond : ¬ (page.Cursor = "" ∨ page.TokenHolders = []) := by
        intro h; rcases h with h | h
        · exact hcur h
        · exact hnonempty h
      have hstep := ih page.Cursor final (acc ++ page.TokenHolders) n e hrec herr
        (by simpa using Nat.lt_of_succ_lt_succ hfuel)
      simp only [getAllTokenHoldersLoop, hf, if_neg hcond]
      exact hstep

theorem wrap64_wrap64_add (a b : Int) : wrap64 (wrap64 a + b) = wrap64 (a + b) := by
  simp only [wrap64]
  omega

theorem foldl_int64Add_balance (l : List TokenHolder) :
    ∀ (a : Int), l.foldl (fun acc h => int64Add acc h.Balance) (wrap64 a) =
      wrap64 (a + (l.map TokenHolder.Balance).sum) := by
  induction l with
  | nil => intro a; simp
  | cons h t ih =>
    intro a
    have hstep : int64Add (wrap64 a) h.Balance = wrap64 (a + h.Balance) := by
      simp only [int64Add, wrap64_wrap64_add]
    simp only [List.foldl_cons, hstep, ih (a + h.Balance), List.map_cons, List.sum_cons,
      add_assoc]

/-- The `int64` running sum of the balances, as the Go accumulators compute
it, is the mathematical sum reduced into the `int64` range. -/
theorem foldl_int64Add_balance_zero (l : List TokenHolder) :
    l.foldl (fun acc h => int64Add acc h.Balance) 0 =
      wrap64 ((l.map TokenHolder.Balance).sum) := by
  have h0 : (0 : Int) = wrap64 0 := by decide
  rw [h0, foldl_int64Add_balance]
  simp

/-! Concrete fixtures used to witness the conditional theorems below. -/

def wClient : Client :=
  { apiKey := "k", apiURL := "https://api.example", rpcURL := "https://rpc.example" }

def wHolder1 : TokenHolder :=
  { Owner := "o1", TokenAccount := "t1", Balance := 5, Decimals := 0 }

def wHolder2 : TokenHolder :=
  { Owner := "o2", TokenAccount := "t2", Balance := 3, Decimals := 0 }

def wPage1 : TokenHoldersPage :=
  { Total := 2, Limit := 10000, Cursor := "c1", TokenHolders := [wHolder1] }

def wPage2 : TokenHoldersPage :=
  { Total := 2, Limit := 10000, Cursor := "", TokenHolders := [wHolder2] }

/-- A test transport that echoes the request body back as a 200 response. -/
def wEcho : Transport :=
  fun _ _ body => .ok { status := 200, body := body.getD "" }

/-- A test decoder mapping the two request bodies the pagination loop sends
for mint "m" (first with no cursor, then with cursor "c1") to the two pages. -/
def wDecode : String → Option TokenHoldersPage :=
  fun s =>
    if s = encodeTokenHoldersBody "m" (some { Cursor := "", Limit := 10000 }) then some wPage1
    else if s = encodeTokenHoldersBody "m" (some { Cursor := "c1", Limit := 10000 }) then some wPage2
    else none

/-- A test transport that fails at the transport level on the second page
request (the one whose body carries cursor "c1") and echoes otherwise. -/
def wEchoFail2 : Transport :=
  fun _ _ body =>
    if body.getD "" = encodeTokenHoldersBody "m" (some { Cursor := "c1", Limit := 10000 }) then
      .error "connection reset"
    else .ok { status := 200, body := body.getD "" }

end Helius

namespace Helius

/-! The claims. -/

/-- C1: for every mint and every sequence of pages returned by the
single-page operation, `GetAllTokenHolders` starts with an empty cursor,
appends each page's items in the order received, stops as soon as a page's
returned cursor is empty or its item list is empty, otherwise repeats with
the returned cursor; the final result is exactly the concatenation of the
pages' item lists in page order. -/
theorem getAllTokenHolders_concatenates_pages (c : Client) (mint : String)
    (transport : Transport) (decode : String → Option TokenHoldersPage)
    (ps : List TokenHoldersPage) (fuel : Nat)
    (hchain : pageChain (tokenHoldersFetch c mint transport decode) "" ps)
    (hfuel : ps.length ≤ fuel) :
    GetAllTokenHolders c mint transport decode fuel =
      some (.ok (ps.map TokenHoldersPage.TokenHolders).flatten) := by
  have h := getAllTokenHoldersLoop_eq_join (tokenHoldersFetch c mint transport decode)
    ps "" [] fuel hchain hfuel
  simpa [GetAllTokenHolders] using h

theorem getAllTokenHolders_concatenates_pages_witness :
    pageChain (tokenHoldersFetch wClient "m" wEcho wDecode) "" [wPage1, wPage2] ∧
    GetAllTokenHolders wClient "m" wEcho wDecode 2 =
      some (.ok ([wPage1, wPage2].map TokenHoldersPage.TokenHolders).flatten) := by
  have hchain : pageChain (tokenHoldersFetch wClient "m" wEcho wDecode) "" [wPage1, wPage2] := by
    simp only [pageChain]
    exact ⟨by decide, by decide, by decide, by decide, Or.inl (by decide)⟩
  exact ⟨hchain,
    getAllTokenHolders_concatenates_pages wClient "m" wEcho wDecode [wPage1, wPage2] 2
      hchain (by decide)⟩

/-- C6: if any single-page call of the multi-page fetch fails, the
aggregator aborts immediately, discards the partial accumulator (no items
are returned), and propagates that error unchanged. -/
theorem getAllTokenHolders_propagates_error (c : Client) (mint : String)
    (transport : Transport) (decode : String → Option TokenHoldersPage)
    (ps : List TokenHoldersPage) (final : String) (e : ClientError) (fuel : Nat)
    (hchain : pageChainUpTo (tokenHoldersFetch c mint transport decode) "" ps final)
    (herr : tokenHoldersFetch c mint transport decode final = .error e)
    (hfuel : ps.length < fuel) :
    GetAllTokenHolders c mint transport decode fuel = some (.error e) := by
  have h := getAllTokenHoldersLoop_error (tokenHoldersFetch c mint transport decode)
    ps "" final [] fuel e hchain herr hfuel
  simpa [GetAllTokenHolders] using h

theorem getAllTokenHolders_propagates_error_witness :
    pageChainUpTo (tokenHoldersFetch wClient "m" wEchoFail2 wDecode) "" [wPage1] "c1" ∧
    tokenHoldersFetch wClient "m" wEchoFail2 wDecode "c1" =
      .error (.network "connection reset") ∧
    ([wPage1] : List TokenHoldersPage).length < 2 ∧
    GetAllTokenHolders wClient "m" wEchoFail2 wDecode 2 =
      some (.error (.network "connection reset")) := by
  have hchain : pageChainUpTo (tokenHoldersFetch wClient "m" wEchoFail2 wDecode) "" [wPage1] "c1" := by
    simp only [pageChainUpTo]
    exact ⟨by decide, by decide, by decide, by decide⟩
  exact ⟨hchain, by decide, by decide,
    getAllTokenHolders_propagates_error wClient "m" wEchoFail2 wDecode [wPage1] "c1"
      (.network "connection reset") 2 hchain (by decide) (by decide)⟩

/-- C2 counterexample: the claim says retry happens exactly for transport
failures, 429, and statuses in 500–599.  At status 600 (a live context and
no transport error) the code retries — `resp.StatusCode >= 500` has no
upper bound — while the claimed characterisation says it must not. -/
theorem checkRetry_claim_fails_at_600 :
    checkRetry false false 600 = true ∧
    ¬ (false = false ∧
        (false = true ∨ (600 : Int) = 429 ∨ (500 ≤ (600 : Int) ∧ (600 : Int) ≤ 599))) := by
  decide

/-- C2 (amended): the retry decision returns true exactly when the context
is still live and either a transport-level failure occurred, or the status
is 429, or the status is at least 500 (not only 500–599); every other
status, including all 4xx other than 429, is not retried. -/
theorem checkRetry_characterization :
    ∀ (ctxDone transportErr : Bool) (status : Int),
      checkRetry ctxDone transportErr status = true ↔
        (ctxDone = false ∧
          (transportErr = true ∨ status = 429 ∨ 500 ≤ status)) := by
  intro ctxDone transportErr status
  by_cases h429 : status = 429 <;> by_cases h500 : (500 : Int) ≤ status <;>
    cases ctxDone <;> cases transportErr <;>
    simp [checkRetry, beq_iff_eq, h429, h500]

theorem checkRetry_characterization_witness :
    (checkRetry false false 503 = true ↔
      (false = false ∧
        (false = true ∨ (503 : Int) = 429 ∨ 500 ≤ (503 : Int)))) ∧
    checkRetry false false 503 = true := by
  refine ⟨checkRetry_characterization false false 503, by decide⟩

/-- C3: the classification predicates on `APIError` are exactly the claimed
functions of the status code: 404, 429, 401, 403, the 400–499 band and the
500–599 band, and the two bands are mutually exclusive. -/
theorem apiError_classification :
    ∀ (e : APIError),
      (e.IsNotFound = true ↔ e.StatusCode = 404) ∧
      (e.IsRateLimited = true ↔ e.StatusCode = 429) ∧
      (e.IsUnauthorized = true ↔ e.StatusCode = 401) ∧
      (e.IsForbidden = true ↔ e.StatusCode = 403) ∧
      (e.IsClientError = true ↔ 400 ≤ e.StatusCode ∧ e.StatusCode ≤ 499) ∧
      (e.IsServerError = true ↔ 500 ≤ e.StatusCode ∧ e.StatusCode ≤ 599) ∧
      (400 ≤ e.StatusCode ∧ e.StatusCode ≤ 499 →
        e.IsClientError = true ∧ e.IsServerError = false) ∧
      (500 ≤ e.StatusCode ∧ e.StatusCode ≤ 599 →
        e.IsServerError = true ∧ e.IsClientError = false) := by
  intro e
  obtain ⟨s, m, p⟩ := e
  simp [APIError.IsNotFound, APIError.IsRateLimited, APIError.IsUnauthorized,
    APIError.IsForbidden, APIError.IsClientError, APIError.IsServerError]
  omega

theorem apiError_classification_witness :
    (400 ≤ (450 : Int) ∧ (450 : Int) ≤ 499) ∧
    (({ StatusCode := 450, Message := "m", Path := "/p" } : APIError).IsClientError = true ∧
      ({ StatusCode := 450, Message := "m", Path := "/p" } : APIError).IsServerError = false) := by
  refine ⟨by decide, ?_⟩
  exact (apiError_classification { StatusCode := 450, Message := "m", Path := "/p" }).2.2.2.2.2.2.1
    (by decide)

/-- A transport that returns status 500 with body "boom" to every request. -/
def wTransport500 : Transport :=
  fun _ _ _ => .ok { status := 500, body := "boom" }

/-- C4: for every response the request core receives, a status ≥ 400 is
turned into an `APIError` carrying exactly that status code, the raw body
verbatim as the message, and the request path; a status < 400 passes the
body bytes through unchanged with no error. -/
theorem doRequest_classifies_response (c : Client) (method path : String)
    (body : Option String) (transport : Transport) (resp : HTTPResponse)
    (h : transport method (requestURL c path) body = .ok resp) :
    (400 ≤ resp.status →
      doRequest c method path body transport =
        .error (.api { StatusCode := resp.status, Message := resp.body, Path := path })) ∧
    (resp.status < 400 →
      doRequest c method path body transport = .ok resp.body) := by
  constructor
  · intro hs
    simp [doRequest, handleResponse, h, if_pos hs]
  · intro hs
    simp [doRequest, handleResponse, h, if_neg (by omega : ¬ (400 ≤ resp.status))]

theorem doRequest_classifies_response_witness :
    wTransport500 "GET" (requestURL wClient "/x") none =
      .ok { status := 500, body := "boom" } ∧
    ((400 ≤ (500 : Int) →
      doRequest wClient "GET" "/x" none wTransport500 =
        .error (.api { StatusCode := 500, Message := "boom", Path := "/x" })) ∧
    ((500 : Int) < 400 →
      doRequest wClient "GET" "/x" none wTransport500 = .ok "boom")) := by
  exact ⟨rfl, doRequest_classifies_response wClient "GET" "/x" none wTransport500
    { status := 500, body := "boom" } rfl⟩

/-- C5: a lookup operation called with an empty required key fails with a
client-side `APIError` of status 400 and never touches the network: for
every transport oracle the result is the same transport-independent
constant, so the transport is never consulted. -/
theorem emptyKey_fails_fast_without_network :
    ∀ (c : Client) (transport : Transport) (dA : String → Option Asset)
      (dT : String → Option TokenHoldersPage) (opts : Option GetTokenHoldersOptions),
      GetAsset c "" transport dA =
        .error (.api { StatusCode := 400, Message := "asset ID is required",
                       Path := "/assets" }) ∧
      GetTokenHolders c "" opts transport dT =
        .error (.api { StatusCode := 400, Message := "mint address is required",
                       Path := "/token-holders" }) := by
  intro c transport dA dT opts
  exact ⟨rfl, rfl⟩

/-- C7: every outgoing request of every operation goes through `doRequest`,
which consults the transport exactly at `requestURL`, and that URL is the
base URL and path followed by the `api-key` query parameter holding the
configured credential — for every verb, path and body. -/
theorem doRequest_url_carries_api_key :
    ∀ (c : Client) (method path : String) (body : Option String) (transport : Transport),
      doRequest c method path body transport =
        handleResponse path (transport method (requestURL c path) body) ∧
      requestURL c path = (c.apiURL ++ path) ++ ("?api-key=" ++ c.apiKey) := by
  intro c method path body transport
  exact ⟨rfl, by simp [requestURL, String.append_assoc]⟩

/-- C8 counterexample: the claim says `RPCURL` equals the base RPC host
immediately followed by `?api-key=<credential>`; the code inserts a `/`
(`fmt.Sprintf("%s/?api-key=%s", ...)`), so at a concrete client the two
strings differ. -/
theorem rpcURL_claim_fails_on_missing_slash :
    Client.RPCURL wClient ≠ wClient.rpcURL ++ "?api-key=" ++ wClient.apiKey := by
  decide

/-- C8 (amended): `RPCURL` returns the configured base RPC host followed by
`/?api-key=<credential>`, where the credential is the configured API key. -/
theorem rpcURL_format :
    ∀ (c : Client), Client.RPCURL c = c.rpcURL ++ "/?api-key=" ++ c.apiKey := by
  intro c
  rfl

/-- C9: `GetAssetBatch` with an empty id list returns an empty slice and no
error without consulting the transport (the result is the same constant for
every transport oracle), whereas `GetAsset` with an empty id — like the
other lookups — fails with a client-side 400. -/
theorem getAssetBatch_empty_is_noop :
    ∀ (c : Client) (transport : Transport) (dB : String → Option (List Asset))
      (dA : String → Option Asset),
      GetAssetBatch c [] transport dB = .ok [] ∧
      GetAsset c "" transport dA =
        .error (.api { StatusCode := 400, Message := "asset ID is required",
                       Path := "/assets" }) := by
  intro c transport dB dA
  exact ⟨rfl, rfl⟩

/-- A sample holder used to exhibit the panic branch of
`CalculateTopHolderStats` at a negative `topN`. -/
def sHolder1 : TokenHolder :=
  { Owner := "a", TokenAccount := "ta", Balance := 7, Decimals := 2 }

def sHolder2 : TokenHolder :=
  { Owner := "b", TokenAccount := "tb", Balance := 2, Decimals := 2 }

/-- A holder whose balance is `2^62`: representable in `int64`, but three
of them overflow an `int64` sum. -/
def ovHolder : TokenHolder :=
  { Owner := "w", TokenAccount := "tw", Balance := 4611686018427387904, Decimals := 0 }

/-- C10 counterexample: the claim says `TotalSupply` is the sum of all
holders' balances, but the Go accumulator is an `int64` and wraps: with
three balances of `2^62` (each representable) the program's `TotalSupply`
is `-2^62`, not the mathematical sum `3 * 2^62`. -/
theorem calculateTopHolderStats_sum_wraps :
    (CalculateTopHolderStats [ovHolder, ovHolder, ovHolder] 0).map TopHolderStats.TotalSupply =
      some (-4611686018427387904) ∧
    (([ovHolder, ovHolder, ovHolder] : List TokenHolder).map TokenHolder.Balance).sum =
      13835058055282163712 ∧
    (CalculateTopHolderStats [ovHolder, ovHolder, ovHolder] 0).map TopHolderStats.TotalSupply ≠
      some ((([ovHolder, ovHolder, ovHolder] : List TokenHolder).map TokenHolder.Balance).sum) := by
  refine ⟨?_, ?_, ?_⟩ <;> decide

/-- C10 (amended): for every holders list and every `topN ≥ 0`,
`CalculateTopHolderStats` reports the list length as `TotalHolders`, the
64-bit wrapping (`int64`) sum of all balances — the mathematical sum
reduced into `[-2^63, 2^63)` — as `TotalSupply`, the first
`min(topN, length)` holders in input order as `TopHolders`, and their
wrapping balance sum as `TopHoldersBalance`; the empty list yields the
all-zero stats (even for a negative `topN`), and for a non-empty list the
precondition `topN ≥ 0` is required — at `topN = -1` the slice allocation
panics, i.e. the model returns `none`. -/
theorem calculateTopHolderStats_fields :
    (∀ (holders : List TokenHolder) (topN : Int), 0 ≤ topN →
      (CalculateTopHolderStats holders topN).map TopHolderStats.TotalHolders =
        some (holders.length : Int) ∧
      (CalculateTopHolderStats holders topN).map TopHolderStats.TotalSupply =
        some (wrap64 ((holders.map TokenHolder.Balance).sum)) ∧
      (CalculateTopHolderStats holders topN).map TopHolderStats.TopHolders =
        some (holders.take (min topN.toNat holders.length)) ∧
      (CalculateTopHolderStats holders topN).map TopHolderStats.TopHoldersBalance =
        some (wrap64 (((holders.take (min topN.toNat holders.length)).map
          TokenHolder.Balance).sum))) ∧
    CalculateTopHolderStats [] (-5) = some {} ∧
    CalculateTopHolderStats [sHolder1] (-1) = none := by
  refine ⟨?_, by decide, by decide⟩
  intro holders topN h0
  by_cases hempty : holders = []
  · subst hempty
    refine ⟨by simp [CalculateTopHolderStats], ?_, by simp [CalculateTopHolderStats], ?_⟩
    · simp only [CalculateTopHolderStats, if_pos rfl, Option.map_some']
      exact congrArg some (by decide)
    · simp only [CalculateTopHolderStats, if_pos rfl, Option.map_some', List.take_nil]
      exact congrArg some (by decide)
  · have hcond : ¬ ((if topN > (holders.length : Int) then (holders.length : Int) else topN) < 0) := by
      split <;> omega
    have htc : (if topN > (holders.length : Int) then (holders.length : Int) else topN).toNat =
        min topN.toNat holders.length := by
      split <;> omega
    refine ⟨?_, ?_, ?_, ?_⟩ <;>
      simp [CalculateTopHolderStats, if_neg hempty, if_neg hcond, htc,
        foldl_int64Add_balance_zero]

theorem calculateTopHolderStats_fields_witness :
    0 ≤ (1 : Int) ∧
    ((CalculateTopHolderStats [sHolder1, sHolder2] 1).map TopHolderStats.TotalHolders =
        some (([sHolder1, sHolder2] : List TokenHolder).length : Int) ∧
      (CalculateTopHolderStats [sHolder1, sHolder2] 1).map TopHolderStats.TotalSupply =
        some (wrap64 ((([sHolder1, sHolder2] : List TokenHolder).map TokenHolder.Balance).sum)) ∧
      (CalculateTopHolderStats [sHolder1, sHolder2] 1).map TopHolderStats.TopHolders =
        some (([sHolder1, sHolder2] : List TokenHolder).take
          (min (1 : Int).toNat ([sHolder1, sHolder2] : List TokenHolder).length)) ∧
      (CalculateTopHolderStats [sHolder1, sHolder2] 1).map TopHolderStats.TopHoldersBalance =
        some (wrap64 (((([sHolder1, sHolder2] : List TokenHolder).take
          (min (1 : Int).toNat ([sHolder1, sHolder2] : List TokenHolder).length)).map
            TokenHolder.Balance).sum))) := by
  exact ⟨by decide, calculateTopHolderStats_fields.1 [sHolder1, sHolder2] 1 (by decide)⟩

end Helius
